import Mathlib

/-!
Shallow embedding of the lichess client's event-and-game streaming subsystem
(package lichess, files lichess.go and the later iteration of the same file).

Conventions of the embedding:
- Go zero values become structure field defaults (empty string, 0, false), so
  a Go literal such as the zero Event corresponds to the Lean instance with all
  defaults.
- A byte stream consumed through a json.Decoder is modelled as a list of read
  outcomes: a successfully decoded record, end of stream (io.EOF), or any other
  decode/transport error.
- log.Fatal terminates the whole process; it is modelled as a distinct
  outcome constructor (fatal), separate from a clean return.
- A Go channel is modelled as the list of values sent on it plus a closed flag.
- A sync.WaitGroup signal is modelled by whether the watched function returned
  (deferred wg.Done runs on return; log.Fatal exits without running defers).
- The interactive stdin accept/decline prompt inside the event watch loop is
  modelled as a decision callback from the decoded Challenge to the response
  string that the prompt reader would produce.
-/

namespace LichessGo

set_option autoImplicit false

/-! ### URL constants, exactly as in the source -/

def lichessURL : String := "https://lichess.org"

def accountPath : String := "/api/account"

def streamEventPath : String := "/api/stream/event"

def streamBoardPath : String := "/api/board/game/stream/%s"

def seekPath : String := "/api/board/seek"

def challengeRespPath : String := "/api/challenge/%s/%s"

/-! ### Data model (structs of the source; Go zero values as defaults) -/

structure Variant where
  Key : String := ""
  Name : String := ""
  Short : String := ""
deriving DecidableEq, Repr

structure Challenger where
  ID : String := ""
  Name : String := ""
  Title : String := ""
  Rating : Int := 0
  Patron : Bool := false
  Online : Bool := false
  Lag : Int := 0
deriving DecidableEq, Repr

structure Challenge where
  ID : String := ""
  Status : String := ""
  challenger : Challenger := {}
  variant : Variant := {}
  Rated : Bool := false
  Color : String := ""
deriving DecidableEq, Repr

structure Clock where
  Initial : Nat := 0
  Increment : Nat := 0
deriving DecidableEq, Repr

structure State where
  type : String := ""
  Moves : String := ""
  WhiteTime : Nat := 0
  BlackTime : Nat := 0
  WhiteIncre : Nat := 0
  BlackIncre : Nat := 0
  Status : String := ""
deriving DecidableEq, Repr

structure WhiteSide where
  ID : String := ""
  Name : String := ""
deriving DecidableEq, Repr

structure BlackSide where
  ID : String := ""
  Name : String := ""
deriving DecidableEq, Repr

structure Board where
  type : String := ""
  ID : String := ""
  Rated : Bool := false
  variant : Variant := {}
  clock : Clock := {}
  Speed : String := ""
  CreatedAt : Nat := 0
  White : WhiteSide := {}
  Black : BlackSide := {}
  InitialFen : String := ""
  state : State := {}
  Moves : String := ""
  Status : String := ""
  Winner : String := ""
  Username : String := ""
  Text : String := ""
  Room : String := ""
deriving DecidableEq, Repr

/-- A Go channel of values of type alpha: the values sent on it so far and
whether it has been closed. -/
structure Chan (α : Type) where
  sent : List α := []
  closed : Bool := false
deriving DecidableEq, Repr

def Chan.send {α : Type} (c : Chan α) (a : α) : Chan α :=
  { c with sent := c.sent ++ [a] }

structure Game where
  ID : String := ""
  board : Chan Board := {}
deriving DecidableEq, Repr

structure Event where
  type : String := ""
  challenge : Challenge := {}
  game : Game := {}
deriving DecidableEq, Repr

/-! ### Profile and its nested structs (needed by GetAccount's zero check) -/

structure Details where
  Bio : String := ""
  Country : String := ""
  FirstName : String := ""
  LastName : String := ""
  Links : String := ""
  Location : String := ""
deriving DecidableEq, Repr

structure Count where
  AI : Nat := 0
  All : Nat := 0
  Bookmark : Nat := 0
  Draw : Nat := 0
  DrawH : Nat := 0
  Imported : Nat := 0
  Loss : Nat := 0
  LossH : Nat := 0
  me : Nat := 0
  Playing : Nat := 0
  Rated : Nat := 0
  Win : Nat := 0
  WinH : Nat := 0
deriving DecidableEq, Repr

structure PerfType where
  Games : Nat := 0
  Progress : Int := 0
  Rating : Nat := 0
  Rd : Nat := 0
deriving DecidableEq, Repr

structure Performance where
  Blitz : PerfType := {}
  Bullet : PerfType := {}
  Chess960 : PerfType := {}
  Puzzle : PerfType := {}
deriving DecidableEq, Repr

structure PlayTime where
  Total : Nat := 0
  Tv : Nat := 0
deriving DecidableEq, Repr

structure Profile where
  ID : String := ""
  Username : String := ""
  Title : String := ""
  Online : Bool := false
  Playing : Bool := false
  Streaming : Bool := false
  CreatedAt : Nat := 0
  SeenAt : Nat := 0
  details : Details := {}
  NbFollowers : Nat := 0
  NbFollowing : Nat := 0
  CompletionRate : Nat := 0
  Language : String := ""
  count : Count := {}
  performance : Performance := {}
  Patron : Bool := false
  Disabled : Bool := false
  Engine : Bool := false
  Booster : Bool := false
  playTime : PlayTime := {}
deriving DecidableEq, Repr

/-- The session aggregate (struct Lichess of the source). The AuthorizedClient
handle is the external transport collaborator and is modelled by the oracle
parameters of the operations that use it. -/
structure Lichess where
  profile : Profile := {}
  currGame : Game := {}
deriving DecidableEq, Repr

/-! ### Streams -/

/-- One read attempt on a json.Decoder over a byte stream: a decoded record,
end of stream (io.EOF), or any other decode or transport error. -/
inductive ReadResult (α : Type) where
  | ok (a : α)
  | eof
  | fail
deriving DecidableEq, Repr

/-- A network call the client issues through the authorized transport. -/
inductive NetCall where
  | get (url : String)
  | post (url : String) (body : String)
deriving DecidableEq, Repr

/-- A record on the wire of the event stream: which of the Event fields the
json object carries. Go's json.Decoder leaves a field of the destination
struct unchanged when the record omits it. -/
structure RawEvent where
  type? : Option String := none
  challenge? : Option Challenge := none
  game? : Option Game := none
deriving DecidableEq, Repr

/-- Decoding a record into an existing Event value: fields present in the
record overwrite the destination, absent fields keep their previous values
(the source decodes every record into the same Event variable without
resetting it between iterations). -/
def decodeInto (prev : Event) (r : RawEvent) : Event :=
  { type := r.type?.getD prev.type
    challenge := r.challenge?.getD prev.challenge
    game := r.game?.getD prev.game }

/-! ### Event watch loop (WatchForGame) -/

/-- How the event watch loop ended. -/
inductive WatchOutcome where
  | gameFound (captured : Event)
  | fatal
  | blocked
deriving DecidableEq, Repr

/-- Observable behaviour of one run of the event watch loop: network calls in
order, the value of the shared Event variable after each successful decode,
how many times the interactive accept/decline prompt ran, and how the loop
ended. gameFound carries the value left in the Event variable at return. -/
structure WatchRun where
  calls : List NetCall := []
  decoded : List Event := []
  prompts : Nat := 0
  outcome : WatchOutcome
deriving DecidableEq, Repr

/-- The for loop of WatchForGame. The decision argument models the stdin
reader of the challenge branch: given the decoded Challenge it yields the
response string. The source compares that response to the literals y and n.
On a gameStart record the source executes an assignment of the fresh zero
Event eventResp into the shared Event variable and returns, so the captured
Event is the zero Event. On any decode error, io.EOF included, the source
calls log.Fatal. -/
def watchForGameLoop (decision : Challenge → String) (event : Event) :
    List (ReadResult RawEvent) → WatchRun
  | [] => { outcome := .blocked }
  | .eof :: _ => { outcome := .fatal }
  | .fail :: _ => { outcome := .fatal }
  | .ok r :: rest =>
    let e := decodeInto event r
    if e.type = "gameStart" then
      { decoded := [e], outcome := .gameFound {} }
    else if e.type = "challenge" then
      let response := decision e.challenge
      if response = "y" then
        let run := watchForGameLoop decision e rest
        { run with
          calls := .post (lichessURL ++ challengeRespPath ++ e.challenge.ID ++ "/accept") ""
                     :: run.calls
          decoded := e :: run.decoded
          prompts := run.prompts + 1 }
      else if response = "n" then
        let run := watchForGameLoop decision e rest
        { run with
          calls := .post (lichessURL ++ challengeRespPath ++ e.challenge.ID ++ "/decline") ""
                     :: run.calls
          decoded := e :: run.decoded
          prompts := run.prompts + 1 }
      else
        let run := watchForGameLoop decision e rest
        { run with decoded := e :: run.decoded, prompts := run.prompts + 1 }
    else
      let run := watchForGameLoop decision e rest
      { run with decoded := e :: run.decoded }

/-- WatchForGame: GET the event stream, then run the decode loop over it with
a fresh zero Event as the shared decode target. -/
def WatchForGame (decision : Challenge → String)
    (stream : List (ReadResult RawEvent)) : WatchRun :=
  let run := watchForGameLoop decision {} stream
  { run with calls := .get (lichessURL ++ streamEventPath) :: run.calls }

/-- Whether the watcher function returned, i.e. whether its deferred wg.Done
ran (log.Fatal exits the process without running defers; blocked means the
loop is still reading). -/
def WatchRun.returned (w : WatchRun) : Bool :=
  match w.outcome with
  | .gameFound _ => true
  | _ => false

/-- The ID of the Game captured in the Event variable at the success return,
if the run succeeded. -/
def WatchRun.capturedGameID (w : WatchRun) : Option String :=
  match w.outcome with
  | .gameFound e => some e.game.ID
  | _ => none

/-! ### Board update publisher (WatchForBoardUpdates) -/

/-- How the board publishing loop ended: clean return on io.EOF, process
termination through log.Fatal on any other decode error, or still reading. -/
inductive PubOutcome where
  | ok
  | fatal
  | blocked
deriving DecidableEq, Repr

structure PubRun where
  chan : Chan Board
  outcome : PubOutcome
deriving DecidableEq, Repr

/-- The for loop of WatchForBoardUpdates: decode into a fresh Board each
iteration, send it on the channel; return cleanly on io.EOF; log.Fatal on any
other error. The channel is never closed by this loop. -/
def watchForBoardLoop : List (ReadResult Board) → Chan Board → PubRun
  | [], ch => { chan := ch, outcome := .blocked }
  | .eof :: _, ch => { chan := ch, outcome := .ok }
  | .fail :: _, ch => { chan := ch, outcome := .fatal }
  | .ok b :: rest, ch => watchForBoardLoop rest (ch.send b)

/-- WatchForBoardUpdates: GET the per-game board stream (the URL concatenates
the unformatted streamBoardPath pattern with the game id), then run the
publishing loop onto the given channel. -/
def WatchForBoardUpdates (gameId : String) (stream : List (ReadResult Board))
    (ch : Chan Board) : String × PubRun :=
  (lichessURL ++ streamBoardPath ++ gameId, watchForBoardLoop stream ch)

/-- Whether the publisher function returned, i.e. its deferred wg.Done ran. -/
def PubRun.returned (p : PubRun) : Bool :=
  match p.outcome with
  | .ok => true
  | _ => false

/-! ### GetAccount (value receiver, memoization check against the zero
Profile) -/

/-- Observable behaviour of one GetAccount call: the returned Profile, the
caller-visible session state after the call, and the network calls issued. -/
structure AccountCall where
  result : Profile
  caller : Lichess
  gets : List NetCall
deriving DecidableEq, Repr

/-- GetAccount from the source. The method has a value receiver, so it works
on a copy of the session: the assignment of the fetched profile lands on the
copy and the caller-visible session state is unchanged when the call returns.
The transport and json decode are modelled by the oracle fetchedProfile, the
Profile the GET plus decode would produce. -/
def GetAccount (fetchedProfile : Profile) (callerState : Lichess) : AccountCall :=
  let l := callerState
  if l.profile = ({} : Profile) then
    let profile := fetchedProfile
    let l2 := { l with profile := profile }
    { result := l2.profile
      caller := callerState
      gets := [.get (lichessURL ++ accountPath)] }
  else
    { result := l.profile, caller := callerState, gets := [] }

/-! ### SeekGame and FindAndStartGame -/

/-- The form-encoded body SeekGame builds with Sprintf. -/
def seekParams (rated : Bool) (time incre : Nat)
    (variant color ratingRange : String) : String :=
  "rated=" ++ (if rated then "true" else "false") ++
  "&time=" ++ toString time ++
  "&increment=" ++ toString incre ++
  "&variant=" ++ variant ++
  "&color=" ++ color ++
  "&ratingRange=" ++ ratingRange

/-- The POST SeekGame issues. -/
def SeekGame (rated : Bool) (time incre : Nat)
    (variant color ratingRange : String) : NetCall :=
  .post (lichessURL ++ seekPath) (seekParams rated time incre variant color ratingRange)

/-- One step in the sequential execution of FindAndStartGame. -/
inductive Step where
  | call (c : NetCall)
  | watcherReturned
  | seekIssued
  | waitReturned
  | gameBound (id : String)
deriving DecidableEq, Repr

/-- How FindAndStartGame ended: it returned, the process died in log.Fatal
inside the watcher, or the watcher is still blocked reading the stream. -/
inductive FindOutcome where
  | completed
  | fatal
  | blocked
deriving DecidableEq, Repr

/-- Observable behaviour of one FindAndStartGame call: the ordered step
trace, the final value of the method's local copy of the receiver, the
caller-visible session state after the call, and how the call ended. -/
structure FindRun where
  steps : List Step
  localFinal : Lichess
  caller : Lichess
  outcome : FindOutcome
deriving DecidableEq, Repr

/-- FindAndStartGame from the source. The body calls WatchForGame directly
(there is no go statement), so the watcher runs synchronously to completion
before SeekGame is called; wg.Wait then returns at once because the deferred
wg.Done already ran. The watcher's captured Event is then read: currGame is
assigned its Game and a fresh channel is allocated for it. The receiver is a
value, so both assignments land on the method's copy and the caller-visible
session state is unchanged. -/
def FindAndStartGame (decision : Challenge → String)
    (stream : List (ReadResult RawEvent))
    (rated : Bool) (time incre : Nat) (variant color ratingRange : String)
    (callerState : Lichess) : FindRun :=
  let l := callerState
  let w := WatchForGame decision stream
  match w.outcome with
  | .fatal =>
      { steps := w.calls.map .call, localFinal := l, caller := callerState
        outcome := .fatal }
  | .blocked =>
      { steps := w.calls.map .call, localFinal := l, caller := callerState
        outcome := .blocked }
  | .gameFound ev =>
      let seek := SeekGame rated time incre variant color ratingRange
      let l2 := { l with currGame := ev.game }
      let l3 := { l2 with currGame := { l2.currGame with board := ({} : Chan Board) } }
      { steps := w.calls.map .call ++
          [.watcherReturned, .call seek, .seekIssued, .waitReturned, .gameBound ev.game.ID]
        localFinal := l3
        caller := callerState
        outcome := .completed }

/-! ### Concrete sample data for evaluating the operations -/

def challengeC1 : Challenge := { ID := "c1", challenger := { Name := "alice" } }

def challengeC2 : Challenge := { ID := "c2" }

def gameG1 : Game := { ID := "g1" }

def rawChallengeC1 : RawEvent := { type? := some "challenge", challenge? := some challengeC1 }

def rawChallengeC2 : RawEvent := { type? := some "challenge", challenge? := some challengeC2 }

def rawGameStartG1 : RawEvent := { type? := some "gameStart", game? := some gameG1 }

/-- Event stream: a challenge, then the gameStart for g1, then one more
challenge record that a loop exiting at the gameStart never reads. -/
def eventStreamC1 : List (ReadResult RawEvent) :=
  [.ok rawChallengeC1, .ok rawGameStartG1, .ok rawChallengeC2]

def boardR1 : Board := { type := "gameFull", ID := "g1" }

def boardR2 : Board := { type := "gameState", Moves := "e2e4" }

/-- Board-state stream: records R1 and R2, then clean closure. -/
def boardStreamR12 : List (ReadResult Board) := [.ok boardR1, .ok boardR2, .eof]

def profileSample : Profile := { ID := "u1", Username := "user1" }

def activeGame : Game := { ID := "old", board := { sent := [boardR1], closed := false } }

/-- A session that already has an active game bound. -/
def activeSession : Lichess := { currGame := activeGame }

/-! ## Theorems settling the claims -/

/-- The board decode loop consumes a run of well-formed records by sending
each one on the channel in order, then continues on the rest of the
stream. -/
theorem watchForBoardLoop_over_oks (bs : List Board)
    (tail : List (ReadResult Board)) (ch : Chan Board) :
    watchForBoardLoop (bs.map .ok ++ tail) ch =
      watchForBoardLoop tail { ch with sent := ch.sent ++ bs } := by
  induction bs generalizing ch with
  | nil => simp
  | cons b bs ih => simp [watchForBoardLoop, Chan.send, ih, List.append_assoc]

/-- Claim C1, evaluated on the code at the failing input: on the stream
challenge then gameStart for g1 then a further record, the watcher prompts
the decision callback exactly once, issues no network call besides the
opening GET, decodes nothing after the gameStart record, and returns — but
the Game it captures has the empty ID, not g1, because the source assigns
the zero Event eventResp into the shared Event variable before returning. -/
theorem C1_watcher_returns_zero_game :
    (WatchForGame (fun _ => "") eventStreamC1).prompts = 1 ∧
    (WatchForGame (fun _ => "") eventStreamC1).calls = [.get (lichessURL ++ streamEventPath)] ∧
    (WatchForGame (fun _ => "") eventStreamC1).decoded.length = 2 ∧
    (WatchForGame (fun _ => "") eventStreamC1).returned = true ∧
    (WatchForGame (fun _ => "") eventStreamC1).capturedGameID = some "" := by
  refine ⟨rfl, rfl, rfl, rfl, rfl⟩

/-- Claim C2, counterexample: on the stream R1, R2, clean close, the
publisher does return cleanly, yet the game channel is not closed — the
source never closes it, so the claimed implication fails at this input. -/
theorem C2_channel_not_closed_counterexample :
    ¬ (((WatchForBoardUpdates "g1" boardStreamR12 {}).2.outcome = PubOutcome.ok) →
       ((WatchForBoardUpdates "g1" boardStreamR12 {}).2.chan.closed = true)) := by
  decide

/-- Claim C2 as amended: on a board stream emitting R1 then R2 then closing
cleanly, the publisher sends exactly R1 then R2 in order on the channel,
produces no error and returns, so its deferred wait-group signal fires; the
channel itself is left unclosed. -/
theorem C2_publisher_in_order_no_error_unclosed (b1 b2 : Board) (gameId : String) :
    (WatchForBoardUpdates gameId [.ok b1, .ok b2, .eof] ({} : Chan Board)).2 =
      { chan := { sent := [b1, b2], closed := false }, outcome := .ok } ∧
    (WatchForBoardUpdates gameId [.ok b1, .ok b2, .eof] ({} : Chan Board)).2.returned = true := by
  exact ⟨rfl, rfl⟩

/-- Claim C3, evaluated on the code: a stream of well-formed records
followed by a malformed record sends exactly the preceding records, in
order, and yields nothing after the malformed position — but the loop ends
in log.Fatal, which terminates the whole process instead of surfacing a
StreamDecodeError to the caller. -/
theorem C3_malformed_record_process_fatal (bs : List Board)
    (tail : List (ReadResult Board)) (gameId : String) (ch : Chan Board) :
    (WatchForBoardUpdates gameId (bs.map .ok ++ .fail :: tail) ch).2 =
      { chan := { ch with sent := ch.sent ++ bs }, outcome := .fatal } := by
  show watchForBoardLoop (bs.map .ok ++ .fail :: tail) ch = _
  rw [watchForBoardLoop_over_oks]
  rfl

/-- Claim C4, evaluated on the code at the failing input: calling
FindAndStartGame on a session whose current game is active completes with no
error at all — no GameAlreadyActiveError path exists — and runs the whole
find flow, rebinding currGame on the method's local copy of the receiver;
the caller-visible session (its game binding and channel included) is
unchanged only because the value receiver discards every assignment. -/
theorem C4_active_game_not_rejected :
    (FindAndStartGame (fun _ => "") [.ok rawGameStartG1] true 10 0 "standard" "random" ""
        activeSession).outcome = FindOutcome.completed ∧
    (FindAndStartGame (fun _ => "") [.ok rawGameStartG1] true 10 0 "standard" "random" ""
        activeSession).caller = activeSession ∧
    (FindAndStartGame (fun _ => "") [.ok rawGameStartG1] true 10 0 "standard" "random" ""
        activeSession).localFinal.currGame = { ID := "", board := {} } := by
  refine ⟨rfl, rfl, rfl⟩

/-- Claim C5, evaluated on the code at the failing input: with a decision
callback answering n for challenge c1, the watcher issues exactly one POST
and keeps watching (it stays in the loop) — but the POST goes to the URL
built by concatenating the unformatted pattern challengeRespPath, not to
/api/challenge/c1/decline. -/
theorem C5_decline_post_goes_to_malformed_path :
    (WatchForGame (fun _ => "n") [.ok rawChallengeC1]).calls =
      [.get (lichessURL ++ streamEventPath),
       .post "https://lichess.org/api/challenge/%s/%sc1/decline" ""] ∧
    (WatchForGame (fun _ => "n") [.ok rawChallengeC1]).outcome = WatchOutcome.blocked ∧
    lichessURL ++ challengeRespPath ++ "c1" ++ "/decline" ≠
      lichessURL ++ "/api/challenge/c1/decline" := by
  refine ⟨rfl, rfl, by decide⟩

/-- Claim C6: on a stream of N well-formed records followed by clean
closure, the board decode loop sends exactly those N records in stream
order and terminates without error. -/
theorem C6_clean_stream_yields_all_records (bs : List Board)
    (gameId : String) (ch : Chan Board) :
    (WatchForBoardUpdates gameId (bs.map .ok ++ [.eof]) ch).2 =
      { chan := { ch with sent := ch.sent ++ bs }, outcome := .ok } := by
  show watchForBoardLoop (bs.map .ok ++ [.eof]) ch = _
  rw [watchForBoardLoop_over_oks]
  rfl

/-- Claim C7, evaluated on the code: the step trace of FindAndStartGame
shows the watcher's return strictly before the seek POST — the call to
WatchForGame is synchronous (no go statement), so the watcher has already
completed before the seek is issued, and the wait returns immediately
afterwards. -/
theorem C7_watcher_completes_before_seek :
    (FindAndStartGame (fun _ => "") [.ok rawGameStartG1] true 10 0 "standard" "random" ""
        {}).steps =
      [.call (.get (lichessURL ++ streamEventPath)),
       .watcherReturned,
       .call (SeekGame true 10 0 "standard" "random" ""),
       .seekIssued, .waitReturned, .gameBound ""] := by
  rfl

/-- Claim C8, evaluated on the code at the failing input: a first
GetAccount call on a fresh session issues one GET, but because the value
receiver discards the cached profile, the caller-visible session is
unchanged and a second call issues a GET again instead of none. -/
theorem C8_second_call_fetches_again :
    (GetAccount profileSample {}).gets = [.get (lichessURL ++ accountPath)] ∧
    (GetAccount profileSample (GetAccount profileSample {}).caller).gets =
      [.get (lichessURL ++ accountPath)] ∧
    (GetAccount profileSample (GetAccount profileSample {}).caller).result =
      (GetAccount profileSample {}).result := by
  refine ⟨rfl, rfl, rfl⟩

/-- Claim C9: when the decoded record is a challenge and the decision
callback answers neither y nor n, the loop issues no network call for that
record (the calls of the run are exactly those of the rest of the stream)
and continues watching with the same eventual outcome. -/
theorem C9_invalid_decision_no_network_continue
    (decision : Challenge → String) (prev : Event) (r : RawEvent)
    (rest : List (ReadResult RawEvent))
    (hty : (decodeInto prev r).type = "challenge")
    (hy : decision (decodeInto prev r).challenge ≠ "y")
    (hn : decision (decodeInto prev r).challenge ≠ "n") :
    (watchForGameLoop decision prev (.ok r :: rest)).calls =
      (watchForGameLoop decision (decodeInto prev r) rest).calls ∧
    (watchForGameLoop decision prev (.ok r :: rest)).outcome =
      (watchForGameLoop decision (decodeInto prev r) rest).outcome := by
  have hgs : ¬ ((decodeInto prev r).type = "gameStart") := by
    rw [hty]; decide
  simp only [watchForGameLoop, hgs, if_false, hty, if_true, if_neg hy, if_neg hn]
  exact ⟨rfl, rfl⟩

/-- Witness for C9 at a concrete input: the callback answers x for the
challenge record c1 and the loop neither posts nor exits. -/
theorem C9_invalid_decision_witness :
    (watchForGameLoop (fun _ => "x") {} [.ok rawChallengeC1]).calls =
      (watchForGameLoop (fun _ => "x") (decodeInto {} rawChallengeC1) []).calls ∧
    (watchForGameLoop (fun _ => "x") {} [.ok rawChallengeC1]).outcome =
      (watchForGameLoop (fun _ => "x") (decodeInto {} rawChallengeC1) []).outcome :=
  C9_invalid_decision_no_network_continue (fun _ => "x") {} rawChallengeC1 []
    (by decide) (by decide) (by decide)

/-- Claim C10: the loop decodes every record into the same Event variable
without resetting it, so after a challenge record carrying c, a gameStart
record that omits the challenge field still decodes to an Event carrying c
in its challenge field. -/
theorem C10_event_variable_reused_across_decodes
    (decision : Challenge → String) (c : Challenge) (g : Game) :
    (WatchForGame decision
      [.ok { type? := some "challenge", challenge? := some c },
       .ok { type? := some "gameStart", game? := some g }]).decoded =
      [{ type := "challenge", challenge := c, game := {} },
       { type := "gameStart", challenge := c, game := g }] := by
  simp only [WatchForGame, watchForGameLoop, decodeInto]
  split_ifs <;> simp_all

end LichessGo
